import Mathlib

/-!
Shallow embedding of the postgres migration driver
(src/driver/postgres/postgres.go) from demiurgestudios/migrate.

The driver applies one versioned SQL migration file against a database,
optionally inside a transaction, records the applied version in the
`schema_migrations` table, and streams progress and errors over a channel.

Database effects are modelled by an explicit `DbState` (the rows of the
version table plus an abstract `world` component for everything else the
migration SQL may touch) together with a `DbBehavior` oracle that fixes the
outcome of each database call (begin/exec/commit/rollback and the
insert/delete of the version row).  Transaction semantics follow Postgres:
writes made through a transaction handle become visible in the final state
only on a successful commit; otherwise the pre-transaction state survives.
The progress channel is modelled as the list of values sent on it, with a
final `closed` marker appended by the deferred `close(pipe)`.
-/

namespace MigratePostgres

/-- Direction of a migration, mirroring migrate/direction (Up or Down). -/
inductive Direction where
  | up
  | down
  deriving DecidableEq

/-- Go error values as the driver observes them: either a structured
`*pq.Error` carrying severity, code, message and character position
(a decimal string, empty when absent), or any other error value
(`plain`), which the driver's type assertion does not expect. -/
inductive GoError where
  | pq (severity code message position : String)
  | plain (message : String)
  deriving DecidableEq

/-- Result of `f.ReadContent()`: either the loaded SQL text (as a byte/char
sequence) or the read error. -/
inductive ReadResult where
  | failed (e : GoError)
  | loaded (content : List Char)
  deriving DecidableEq

/-- Migration file as the driver sees it: version, direction, and the
outcome of loading its content on demand (file.File). -/
structure File where
  version : Nat
  direction : Direction
  readContent : ReadResult
  deriving DecidableEq

/-- Database state: the rows of the `schema_migrations` version table and an
abstract component for all other state the migration SQL may change. -/
structure DbState where
  versions : List Nat
  world : Nat
  deriving DecidableEq

/-- Marker line that opts a migration file out of transactional execution. -/
def noTransactionMarker : List Char := String.toList "-- migrate: no-transaction\n"

/-- Mirrors canUseTransaction (postgres.go line 94): a migration may run in a
transaction unless its SQL text starts with the exact marker line. -/
def canUseTransaction (sql : List Char) : Bool :=
  !(noTransactionMarker.isPrefixOf sql)

/-- Digits of a decimal literal to a number; none when empty or when any
character is not a digit (mirrors the error cases of strconv.Atoi). -/
def digitsToNat : List Char → Option Nat
  | [] => none
  | cs => cs.foldl
      (fun acc c =>
        match acc with
        | none => none
        | some n => if c.isDigit then some (n * 10 + (c.toNat - 48)) else none)
      (some 0)

/-- Mirrors strconv.Atoi: an optional sign followed by at least one digit;
any other input is an error (none). -/
def atoi (s : String) : Option Int :=
  match s.toList with
  | [] => none
  | '+' :: rest => (digitsToNat rest).map Int.ofNat
  | '-' :: rest => (digitsToNat rest).map (fun n => -(Int.ofNat n))
  | cs => (digitsToNat cs).map Int.ofNat

/-- Modelled from the spec: file.LineColumnFromOffset of the repository's
file package is not under src.  Per the spec, the offset is a 0-based byte
position into the SQL text as read; the returned line number is 1-based,
one plus the count of newline bytes preceding the offset, and the returned
column is 1-based, the distance since the last newline. -/
def LineColumnFromOffset (content : List Char) (offset : Nat) : Nat × Nat :=
  let pre := content.take offset
  (1 + pre.count '\n', 1 + (pre.reverse.takeWhile (fun c => c != '\n')).length)

/-- Lines of a text split on newline bytes; a trailing newline yields a final
empty line, as strings.Split does. -/
def splitLines : List Char → List (List Char)
  | [] => [[]]
  | '\n' :: rest => [] :: splitLines rest
  | c :: rest =>
    match splitLines rest with
    | [] => [[c]]
    | l :: ls => (c :: l) :: ls

/-- Modelled from the spec: file.LinesBeforeAndAfter of the repository's
file package is not under src.  Per the spec, it extracts a context window
of `before` lines before and `after` lines after the given 1-based line,
inclusive of that line and trimmed at the file boundaries.  The final Bool
argument is not described by the spec and is modelled as having no effect. -/
def LinesBeforeAndAfter (content : List Char) (lineNo before after : Nat) (_flag : Bool) :
    List Char :=
  let ls := splitLines content
  let start := max 1 (lineNo - before)
  List.intercalate ['\n'] ((ls.drop (start - 1)).take (lineNo + after + 1 - start))

/-- Error message built by internalMigrate (postgres.go lines 104-113) for a
failed Exec.  `none` models the run-time panic of the unchecked type
assertion err.(*pq.Error) when the error is not a *pq.Error.  When
strconv.Atoi parses the position and it is non-negative, the message embeds
the 1-based line and column (the Go code passes offset-1 to
LineColumnFromOffset; the Int-to-Nat clamp below only differs from Go for
position "0", which Postgres never reports) and a 5-lines-around context;
otherwise the message is just severity, code and message. -/
def execErrorMessage (e : GoError) (content : List Char) : Option String :=
  match e with
  | .plain _ => none
  | .pq severity code message position =>
    match atoi position with
    | some offset =>
      if 0 ≤ offset then
        let lc := LineColumnFromOffset content (offset - 1).toNat
        some (severity ++ " " ++ code ++ ": " ++ message ++ " in line " ++ toString lc.1 ++
          ", column " ++ toString lc.2 ++ ":\n\n" ++
          (LinesBeforeAndAfter content lc.1 5 5 true).asString)
      else
        some (severity ++ " " ++ code ++ ": " ++ message)
    | none => some (severity ++ " " ++ code ++ ": " ++ message)

/-- Outcome of the shared execution routine: a Go panic (unchecked type
assertion on a non-pq error), an error return, or a nil return. -/
inductive RoutineResult where
  | panicked
  | errored (e : GoError)
  | succeeded
  deriving DecidableEq

/-- Database calls the driver issues, recorded for trace properties. -/
inductive DbCall where
  | beginTx
  | execSql
  | insertVersion (v : Nat)
  | deleteVersion (v : Nat)
  | commitTx
  | rollbackTx
  deriving DecidableEq

/-- Oracle fixing the outcome of each database interaction of one Migrate
call: whether Begin fails, the state effect and error of executing the
migration SQL, whether the version-row INSERT or DELETE fails, and whether
Commit or Rollback fail. -/
structure DbBehavior where
  beginErr : Option GoError
  runSql : DbState → DbState × Option GoError
  insertErr : Option GoError
  deleteErr : Option GoError
  commitErr : Option GoError
  rollbackErr : Option GoError

/-- Mirrors internalMigrate (postgres.go lines 103-130) against an explicit
state: execute the SQL text; on error, format it (or panic on a non-pq
error); on success, insert the version row (Up) or delete it (Down).
Returns the routine result, the state as seen through the executable
handle, and the calls issued. -/
def internalMigrate (b : DbBehavior) (f : File) (content : List Char) (s : DbState) :
    RoutineResult × DbState × List DbCall :=
  match b.runSql s with
  | (s1, some e) =>
    match execErrorMessage e content with
    | some m => (.errored (.plain m), s1, [.execSql])
    | none => (.panicked, s1, [.execSql])
  | (s1, none) =>
    match f.direction with
    | .up =>
      match b.insertErr with
      | some e => (.errored e, s1, [.execSql, .insertVersion f.version])
      | none =>
        (.succeeded, { s1 with versions := s1.versions ++ [f.version] },
          [.execSql, .insertVersion f.version])
    | .down =>
      match b.deleteErr with
      | some e => (.errored e, s1, [.execSql, .deleteVersion f.version])
      | none =>
        (.succeeded, { s1 with versions := s1.versions.filter (fun v => v != f.version) },
          [.execSql, .deleteVersion f.version])

/-- Values observable on the progress channel of one Migrate call: the file
sent at the start, error values, and the channel close (from the deferred
close(pipe), which runs on every return and also during a panic unwind). -/
inductive Event where
  | fileSent (f : File)
  | errorSent (e : GoError)
  | closed
  deriving DecidableEq

/-- Number of close events in a channel trace. -/
def countClosed : List Event → Nat
  | [] => 0
  | .closed :: rest => countClosed rest + 1
  | _ :: rest => countClosed rest

/-- Outcome of one Migrate call: the channel trace, the database state after
the call, the database calls issued, and whether the goroutine panicked. -/
structure MigrateResult where
  events : List Event
  state : DbState
  calls : List DbCall
  panicked : Bool
  deriving DecidableEq

/-- Mirrors the body of Migrate (postgres.go lines 57-92) before the deferred
close(pipe): send the file; load its content; run internalMigrate either
directly against the connection (marker present) or inside a transaction.
In the transactional branch the database only keeps the routine's writes on
a successful Commit; on an error the routine's writes are discarded (the
transaction aborts whether or not the Rollback call itself succeeds). -/
def migrateBody (b : DbBehavior) (f : File) (s : DbState) : MigrateResult :=
  match f.readContent with
  | .failed e => ⟨[.fileSent f, .errorSent e], s, [], false⟩
  | .loaded content =>
    if canUseTransaction content then
      match b.beginErr with
      | some e => ⟨[.fileSent f, .errorSent e], s, [.beginTx], false⟩
      | none =>
        match internalMigrate b f content s with
        | (.panicked, _, cs) => ⟨[.fileSent f], s, .beginTx :: cs, true⟩
        | (.errored e, _, cs) =>
          match b.rollbackErr with
          | some re =>
            ⟨[.fileSent f, .errorSent e, .errorSent re], s, .beginTx :: (cs ++ [.rollbackTx]), false⟩
          | none =>
            ⟨[.fileSent f, .errorSent e], s, .beginTx :: (cs ++ [.rollbackTx]), false⟩
        | (.succeeded, s1, cs) =>
          match b.commitErr with
          | some ce =>
            ⟨[.fileSent f, .errorSent ce], s, .beginTx :: (cs ++ [.commitTx]), false⟩
          | none => ⟨[.fileSent f], s1, .beginTx :: (cs ++ [.commitTx]), false⟩
    else
      match internalMigrate b f content s with
      | (.panicked, s1, cs) => ⟨[.fileSent f], s1, cs, true⟩
      | (.errored e, s1, cs) => ⟨[.fileSent f, .errorSent e], s1, cs, false⟩
      | (.succeeded, s1, cs) => ⟨[.fileSent f], s1, cs, false⟩

/-- Mirrors Migrate (postgres.go lines 57-92): the body followed by the
deferred close(pipe), which appends the close event on every path,
including the panic unwind. -/
def Migrate (b : DbBehavior) (f : File) (s : DbState) : MigrateResult :=
  let r := migrateBody b f s
  { r with events := r.events ++ [.closed] }

/-- Outcome of scanning the row of `SELECT version FROM schema_migrations
ORDER BY version DESC LIMIT 1`: sql.ErrNoRows, another query error, or the
row value. -/
inductive ScanOutcome where
  | noRows
  | scanErr (e : GoError)
  | row (v : Nat)
  deriving DecidableEq

/-- Greatest element of the version rows, none when the table is empty
(the semantics of ORDER BY version DESC LIMIT 1). -/
def maxVersion : List Nat → Option Nat
  | [] => none
  | v :: vs =>
    some (match maxVersion vs with
      | none => v
      | some m => max v m)

/-- Result the database reports for the version query: a query failure when
the oracle says so, sql.ErrNoRows on an empty table, else the top row. -/
def topVersionRow (s : DbState) (queryErr : Option GoError) : ScanOutcome :=
  match queryErr with
  | some e => .scanErr e
  | none =>
    match maxVersion s.versions with
    | none => .noRows
    | some v => .row v

/-- Mirrors Version (postgres.go lines 132-143): the switch on the Scan
error maps sql.ErrNoRows to (0, nil), any other error to (0, err), and a
scanned row to (version, nil). -/
def Version (s : DbState) (queryErr : Option GoError) : Nat × Option GoError :=
  match topVersionRow s queryErr with
  | .noRows => (0, none)
  | .scanErr e => (0, some e)
  | .row v => (v, none)

/-- Driver state: the connection handle, nil until Initialize assigns it
(postgres.go lines 17-19). -/
structure Driver where
  db : Option Unit
  deriving DecidableEq

/-- Oracle for one Initialize call: whether sql.Open, db.Ping, or the
CREATE TABLE IF NOT EXISTS of the version table fails. -/
structure InitBehavior where
  openErr : Option GoError
  pingErr : Option GoError
  createTableErr : Option GoError

/-- Mirrors Initialize (postgres.go lines 23-37): open, then ping, then
assign the handle, then ensure the version table exists.  The handle is
assigned before the table-creation step, so a table-creation failure
returns an error with the handle already set. -/
def initializeDriver (b : InitBehavior) (d : Driver) : Driver × Option GoError :=
  match b.openErr with
  | some e => (d, some e)
  | none =>
    match b.pingErr with
    | some e => (d, some e)
    | none =>
      let d1 : Driver := { db := some () }
      match b.createTableErr with
      | some e => (d1, some e)
      | none => (d1, none)

/-- Outcome of a driver method that calls through the handle: a nil-pointer
dereference panic when the handle was never assigned, or completion with
the underlying call's error. -/
inductive CallOutcome where
  | nilDeref
  | completed (err : Option GoError)
  deriving DecidableEq

/-- Mirrors Close (postgres.go lines 39-44): driver.db.Close() dereferences
the handle unconditionally; on a nil handle this is a run-time panic. -/
def Close (closeErr : Option GoError) (d : Driver) : CallOutcome :=
  match d.db with
  | none => .nilDeref
  | some _ => .completed closeErr

/-- Outcome of Version() as called through the driver handle. -/
inductive VersionOutcome where
  | nilDeref
  | result (v : Nat) (e : Option GoError)
  deriving DecidableEq

/-- Version() reached through the driver: driver.db.QueryRow dereferences
the handle unconditionally (postgres.go line 134). -/
def VersionOnDriver (d : Driver) (s : DbState) (queryErr : Option GoError) : VersionOutcome :=
  match d.db with
  | none => .nilDeref
  | some _ => .result (Version s queryErr).1 (Version s queryErr).2

/-! Helper lemmas about the traces of migrateBody and internalMigrate. -/

theorem countClosed_append (l1 l2 : List Event) :
    countClosed (l1 ++ l2) = countClosed l1 + countClosed l2 := by
  induction l1 with
  | nil => simp [countClosed]
  | cons e t ih =>
    cases e with
    | fileSent g => simp [countClosed, ih]
    | errorSent x => simp [countClosed, ih]
    | closed => simp [countClosed, ih]; omega

theorem getLast?_cons_append_one {α : Type} (a b : α) (l : List α) :
    (a :: (l ++ [b])).getLast? = some b := by
  rw [show a :: (l ++ [b]) = (a :: l) ++ [b] from rfl]
  exact List.getLast?_concat _

theorem internalMigrate_calls (b : DbBehavior) (f : File) (c : List Char) (s : DbState) :
    (internalMigrate b f c s).2.2 = [.execSql] ∨
    (internalMigrate b f c s).2.2 = [.execSql, .insertVersion f.version] ∨
    (internalMigrate b f c s).2.2 = [.execSql, .deleteVersion f.version] := by
  unfold internalMigrate
  repeat' split
  all_goals simp

theorem migrateBody_countClosed (b : DbBehavior) (f : File) (s : DbState) :
    countClosed (migrateBody b f s).events = 0 := by
  unfold migrateBody
  repeat' split
  all_goals simp [countClosed]

theorem migrateBody_head (b : DbBehavior) (f : File) (s : DbState) :
    (migrateBody b f s).events.head? = some (.fileSent f) := by
  unfold migrateBody
  repeat' split
  all_goals simp

/-- C3: on every path of Migrate the progress channel is closed exactly once
when the call finishes, and the first value published on it, before any
error, is the file descriptor. -/
theorem migrate_pipe_closed_once (b : DbBehavior) (f : File) (s : DbState) :
    countClosed (Migrate b f s).events = 1 ∧
    (Migrate b f s).events.head? = some (.fileSent f) := by
  constructor
  · show countClosed ((migrateBody b f s).events ++ [Event.closed]) = 1
    rw [countClosed_append, migrateBody_countClosed]
    rfl
  · show ((migrateBody b f s).events ++ [Event.closed]).head? = some (.fileSent f)
    have h := migrateBody_head b f s
    cases hl : (migrateBody b f s).events with
    | nil => rw [hl] at h; simp at h
    | cons a t => rw [hl] at h; simp at h; simp [h]

/-- C1: a migration file whose SQL content starts with the exact marker
line runs without a transaction (no Begin call occurs, the SQL is executed
directly); a file whose content does not start with the marker runs inside
a transaction: Begin is the first database call, and when the execution
routine succeeds the last database call is Commit. -/
theorem migrate_transaction_usage (b : DbBehavior) (f : File) (s : DbState) (c : List Char)
    (h : f.readContent = .loaded c) :
    (canUseTransaction c = false →
      DbCall.beginTx ∉ (Migrate b f s).calls ∧ DbCall.execSql ∈ (Migrate b f s).calls) ∧
    (canUseTransaction c = true →
      (Migrate b f s).calls.head? = some DbCall.beginTx ∧
      (b.beginErr = none → (internalMigrate b f c s).1 = .succeeded →
        (Migrate b f s).calls.getLast? = some DbCall.commitTx)) := by
  constructor
  · intro hm
    have hcalls := internalMigrate_calls b f c s
    show DbCall.beginTx ∉ (migrateBody b f s).calls ∧ DbCall.execSql ∈ (migrateBody b f s).calls
    unfold migrateBody
    rw [h]
    simp only [hm, Bool.false_eq_true, if_false]
    rcases him : internalMigrate b f c s with ⟨r, s1, cs⟩
    rw [him] at hcalls
    simp only at hcalls
    cases r <;> rcases hcalls with hc | hc | hc <;> subst hc <;> simp
  · intro hm
    constructor
    · show (migrateBody b f s).calls.head? = some DbCall.beginTx
      unfold migrateBody
      rw [h]
      simp only [hm, if_true]
      repeat' split
      all_goals simp
    · intro hbegin hsucc
      show (migrateBody b f s).calls.getLast? = some DbCall.commitTx
      unfold migrateBody
      rw [h]
      simp only [hm, if_true]
      rw [hbegin]
      rcases him : internalMigrate b f c s with ⟨r, s1, cs⟩
      rw [him] at hsucc
      simp only at hsucc
      subst hsucc
      cases b.commitErr <;> simp [getLast?_cons_append_one]

/-- C2: in the transactional path (content does not start with the marker),
a failing execution routine leaves the version table unchanged after
Migrate finishes: the transaction's writes are discarded. -/
theorem migrate_transactional_atomicity (b : DbBehavior) (f : File) (s : DbState)
    (c : List Char) (e : GoError)
    (h : f.readContent = .loaded c) (ht : canUseTransaction c = true)
    (he : (internalMigrate b f c s).1 = .errored e) :
    (Migrate b f s).state.versions = s.versions := by
  show (migrateBody b f s).state.versions = s.versions
  unfold migrateBody
  rw [h]
  simp only [ht, if_true]
  cases b.beginErr
  · rcases him : internalMigrate b f c s with ⟨r, s1, cs⟩
    rw [him] at he
    simp only at he
    subst he
    cases b.rollbackErr <;> simp
  · simp

theorem maxVersion_none_iff (l : List Nat) : maxVersion l = none ↔ l = [] := by
  cases l <;> simp [maxVersion]

theorem maxVersion_is_max (l : List Nat) (m : Nat) (h : maxVersion l = some m) :
    m ∈ l ∧ ∀ x ∈ l, x ≤ m := by
  induction l generalizing m with
  | nil => simp [maxVersion] at h
  | cons v vs ih =>
    simp only [maxVersion] at h
    cases hmv : maxVersion vs with
    | none =>
      rw [hmv] at h
      simp at h
      subst h
      rw [maxVersion_none_iff] at hmv
      subst hmv
      simp
    | some m0 =>
      rw [hmv] at h
      simp at h
      subst h
      obtain ⟨hmem, hle⟩ := ih m0 hmv
      constructor
      · rcases Nat.le_total v m0 with hv | hv
        · rw [max_eq_right hv]
          exact List.mem_cons_of_mem v hmem
        · rw [max_eq_left hv]
          exact List.mem_cons_self v vs
      · intro x hx
        rcases List.mem_cons.mp hx with hx | hx
        · subst hx
          exact le_max_left _ _
        · exact le_trans (hle x hx) (le_max_right _ _)

/-- C4: Version on a tracking table with no rows returns (0, nil) - no rows
is never an error; any other query error is returned with value 0; and on a
non-empty table it returns the maximum version present with a nil error. -/
theorem version_query_semantics (s : DbState) (q : Option GoError) :
    (s.versions = [] → q = none → Version s q = (0, none)) ∧
    (∀ e, q = some e → Version s q = (0, some e)) ∧
    (q = none → s.versions ≠ [] →
      (Version s q).2 = none ∧ (Version s q).1 ∈ s.versions ∧
      ∀ x ∈ s.versions, x ≤ (Version s q).1) := by
  refine ⟨?_, ?_, ?_⟩
  · intro hs hq
    subst hq
    simp [Version, topVersionRow, hs, maxVersion]
  · intro e hq
    subst hq
    simp [Version, topVersionRow]
  · intro hq hne
    subst hq
    cases hmv : maxVersion s.versions with
    | none => exact absurd ((maxVersion_none_iff s.versions).mp hmv) hne
    | some m =>
      obtain ⟨hmem, hle⟩ := maxVersion_is_max s.versions m hmv
      simp [Version, topVersionRow, hmv]
      exact ⟨hmem, hle⟩

theorem version_query_semantics_witness :
    Version ⟨[], 0⟩ none = (0, none) ∧
    Version ⟨[3], 0⟩ (some (.plain "connection reset")) =
      (0, some (.plain "connection reset")) ∧
    (Version ⟨[1, 3, 2], 0⟩ none).2 = none ∧
    (Version ⟨[1, 3, 2], 0⟩ none).1 ∈ ([1, 3, 2] : List Nat) ∧
    ∀ x ∈ ([1, 3, 2] : List Nat), x ≤ (Version ⟨[1, 3, 2], 0⟩ none).1 := by
  refine ⟨(version_query_semantics ⟨[], 0⟩ none).1 rfl rfl,
    (version_query_semantics ⟨[3], 0⟩ (some (.plain "connection reset"))).2.1 _ rfl, ?_⟩
  have h := (version_query_semantics ⟨[1, 3, 2], 0⟩ none).2.2 rfl (by simp)
  exact ⟨h.1, h.2.1, h.2.2⟩

/-- C7: when the migration SQL executes successfully, the routine inserts
exactly one row carrying the file's version (direction Up) or deletes the
rows carrying it (direction Down; deleting an absent version affects zero
rows and is not an error); a failing insert or delete is returned as the
routine's error, and in the transactional path it triggers a Rollback call
with the error published on the channel. -/
theorem version_row_update (b : DbBehavior) (f : File) (c : List Char) (s : DbState)
    (hexec : (b.runSql s).2 = none) :
    (f.direction = .up → b.insertErr = none →
      (internalMigrate b f c s).1 = .succeeded ∧
      (internalMigrate b f c s).2.1.versions = (b.runSql s).1.versions ++ [f.version]) ∧
    (f.direction = .down → b.deleteErr = none →
      (internalMigrate b f c s).1 = .succeeded ∧
      (internalMigrate b f c s).2.1.versions =
        (b.runSql s).1.versions.filter (fun v => v != f.version)) ∧
    (f.direction = .down → b.deleteErr = none → f.version ∉ (b.runSql s).1.versions →
      (internalMigrate b f c s).2.1.versions = (b.runSql s).1.versions) ∧
    (∀ e, f.direction = .up → b.insertErr = some e →
      (internalMigrate b f c s).1 = .errored e) ∧
    (∀ e, f.direction = .down → b.deleteErr = some e →
      (internalMigrate b f c s).1 = .errored e) ∧
    (∀ e, f.readContent = .loaded c → canUseTransaction c = true → b.beginErr = none →
      (internalMigrate b f c s).1 = .errored e →
      DbCall.rollbackTx ∈ (Migrate b f s).calls ∧
      Event.errorSent e ∈ (Migrate b f s).events) := by
  rcases hrs : b.runSql s with ⟨s1, oe⟩
  rw [hrs] at hexec
  simp only at hexec
  subst hexec
  refine ⟨?_, ?_, ?_, ?_, ?_, ?_⟩
  · intro hdir hins
    unfold internalMigrate
    rw [hrs, hdir, hins]
    exact ⟨rfl, rfl⟩
  · intro hdir hdel
    unfold internalMigrate
    rw [hrs, hdir, hdel]
    exact ⟨rfl, rfl⟩
  · intro hdir hdel hmem
    unfold internalMigrate
    rw [hrs, hdir, hdel]
    show s1.versions.filter (fun v => v != f.version) = s1.versions
    refine List.filter_eq_self.mpr ?_
    intro a ha
    simp only [bne_iff_ne, ne_eq]
    intro hav
    exact hmem (hav ▸ ha)
  · intro e hdir hins
    unfold internalMigrate
    rw [hrs, hdir, hins]
  · intro e hdir hdel
    unfold internalMigrate
    rw [hrs, hdir, hdel]
  · intro e hrd ht hb herr
    show DbCall.rollbackTx ∈ (migrateBody b f s).calls ∧
      Event.errorSent e ∈ ((migrateBody b f s).events ++ [Event.closed])
    unfold migrateBody
    rw [hrd]
    simp only [ht, if_true]
    rw [hb]
    rcases him : internalMigrate b f c s with ⟨r, s2, cs⟩
    rw [him] at herr
    simp only at herr
    subst herr
    cases b.rollbackErr <;> simp

theorem version_row_update_witness :
    ((internalMigrate ⟨none, fun s => (s, none), none, none, none, none⟩
        ⟨3, .up, .loaded []⟩ [] ⟨[1], 0⟩).1 = .succeeded ∧
      (internalMigrate ⟨none, fun s => (s, none), none, none, none, none⟩
        ⟨3, .up, .loaded []⟩ [] ⟨[1], 0⟩).2.1.versions = [1] ++ [3]) ∧
    ((internalMigrate ⟨none, fun s => (s, none), none, none, none, none⟩
        ⟨3, .down, .loaded []⟩ [] ⟨[1, 3], 0⟩).1 = .succeeded ∧
      (internalMigrate ⟨none, fun s => (s, none), none, none, none, none⟩
        ⟨3, .down, .loaded []⟩ [] ⟨[1, 3], 0⟩).2.1.versions =
        [1, 3].filter (fun v => v != 3)) ∧
    ((internalMigrate ⟨none, fun s => (s, none), none, none, none, none⟩
        ⟨3, .down, .loaded []⟩ [] ⟨[1], 0⟩).2.1.versions = [1]) ∧
    ((internalMigrate
        ⟨none, fun s => (s, none), some (.plain "duplicate key"), none, none, none⟩
        ⟨3, .up, .loaded []⟩ [] ⟨[1], 0⟩).1 = .errored (.plain "duplicate key")) ∧
    (DbCall.rollbackTx ∈ (Migrate
        ⟨none, fun s => (s, none), some (.plain "duplicate key"), none, none, none⟩
        ⟨3, .up, .loaded []⟩ ⟨[1], 0⟩).calls ∧
      Event.errorSent (.plain "duplicate key") ∈ (Migrate
        ⟨none, fun s => (s, none), some (.plain "duplicate key"), none, none, none⟩
        ⟨3, .up, .loaded []⟩ ⟨[1], 0⟩).events) := by
  refine ⟨(version_row_update ⟨none, fun s => (s, none), none, none, none, none⟩
      ⟨3, .up, .loaded []⟩ [] ⟨[1], 0⟩ rfl).1 rfl rfl,
    (version_row_update ⟨none, fun s => (s, none), none, none, none, none⟩
      ⟨3, .down, .loaded []⟩ [] ⟨[1, 3], 0⟩ rfl).2.1 rfl rfl,
    (version_row_update ⟨none, fun s => (s, none), none, none, none, none⟩
      ⟨3, .down, .loaded []⟩ [] ⟨[1], 0⟩ rfl).2.2.1 rfl rfl (by decide),
    (version_row_update
      ⟨none, fun s => (s, none), some (.plain "duplicate key"), none, none, none⟩
      ⟨3, .up, .loaded []⟩ [] ⟨[1], 0⟩ rfl).2.2.2.1 _ rfl rfl,
    (version_row_update
      ⟨none, fun s => (s, none), some (.plain "duplicate key"), none, none, none⟩
      ⟨3, .up, .loaded []⟩ [] ⟨[1], 0⟩ rfl).2.2.2.2.2 _ rfl rfl rfl rfl⟩

/-- C8: in the transactional path, an execution failure publishes the
execution error, then Rollback is attempted; a rollback failure publishes
its own error after the execution error, never replacing it - both appear
on the channel in that order. -/
theorem rollback_error_ordering (b : DbBehavior) (f : File) (s : DbState)
    (c : List Char) (e : GoError)
    (h : f.readContent = .loaded c) (ht : canUseTransaction c = true)
    (hb : b.beginErr = none) (he : (internalMigrate b f c s).1 = .errored e) :
    (b.rollbackErr = none →
      (Migrate b f s).events = [.fileSent f, .errorSent e, .closed]) ∧
    (∀ re, b.rollbackErr = some re →
      (Migrate b f s).events = [.fileSent f, .errorSent e, .errorSent re, .closed]) := by
  constructor
  · intro hrb
    have hbody : (migrateBody b f s).events = [.fileSent f, .errorSent e] := by
      unfold migrateBody
      rw [h]
      simp only [ht, if_true]
      rw [hb]
      rcases him : internalMigrate b f c s with ⟨r, s2, cs⟩
      rw [him] at he
      simp only at he
      subst he
      rw [hrb]
    show (migrateBody b f s).events ++ [Event.closed] =
      [Event.fileSent f, Event.errorSent e, Event.closed]
    rw [hbody]
    rfl
  · intro re hrb
    have hbody : (migrateBody b f s).events =
        [.fileSent f, .errorSent e, .errorSent re] := by
      unfold migrateBody
      rw [h]
      simp only [ht, if_true]
      rw [hb]
      rcases him : internalMigrate b f c s with ⟨r, s2, cs⟩
      rw [him] at he
      simp only at he
      subst he
      rw [hrb]
    show (migrateBody b f s).events ++ [Event.closed] =
      [Event.fileSent f, Event.errorSent e, Event.errorSent re, Event.closed]
    rw [hbody]
    rfl

theorem rollback_error_ordering_witness :
    (Migrate
      ⟨none, fun s => (s, some (.pq "ERROR" "42601" "syntax error" "")), none, none, none,
        some (.plain "rollback failed")⟩
      ⟨3, .up, .loaded (String.toList "BAD;")⟩ ⟨[], 0⟩).events =
      [.fileSent ⟨3, .up, .loaded (String.toList "BAD;")⟩,
       .errorSent (.plain "ERROR 42601: syntax error"),
       .errorSent (.plain "rollback failed"), .closed] :=
  (rollback_error_ordering
    ⟨none, fun s => (s, some (.pq "ERROR" "42601" "syntax error" "")), none, none, none,
      some (.plain "rollback failed")⟩
    ⟨3, .up, .loaded (String.toList "BAD;")⟩ ⟨[], 0⟩ (String.toList "BAD;")
    (.plain "ERROR 42601: syntax error") rfl (by decide) rfl rfl).2
    (.plain "rollback failed") rfl

/-- C9: the code panics instead of failing closed: when the execution error
is not a *pq.Error (here a plain error such as a closed-connection error),
the unchecked type assertion err.(*pq.Error) in internalMigrate crashes;
the spec requires a plain wrapped error instead of a crash. -/
theorem nonpq_error_panics :
    (internalMigrate
      ⟨none, fun s => (s, some (.plain "driver: bad connection")), none, none, none, none⟩
      ⟨1, .up, .loaded (String.toList "SELECT 1;")⟩ (String.toList "SELECT 1;")
      ⟨[], 0⟩).1 = .panicked := rfl

theorem migrate_transaction_usage_witness :
    (DbCall.beginTx ∉ (Migrate ⟨none, fun s => (s, none), none, none, none, none⟩
        ⟨2, .up, .loaded (String.toList "-- migrate: no-transaction\nDROP INDEX i;")⟩
        ⟨[], 0⟩).calls ∧
      DbCall.execSql ∈ (Migrate ⟨none, fun s => (s, none), none, none, none, none⟩
        ⟨2, .up, .loaded (String.toList "-- migrate: no-transaction\nDROP INDEX i;")⟩
        ⟨[], 0⟩).calls) ∧
    ((Migrate ⟨none, fun s => (s, none), none, none, none, none⟩
        ⟨3, .up, .loaded (String.toList "SELECT 1;")⟩ ⟨[], 0⟩).calls.head? =
      some DbCall.beginTx ∧
      (Migrate ⟨none, fun s => (s, none), none, none, none, none⟩
        ⟨3, .up, .loaded (String.toList "SELECT 1;")⟩ ⟨[], 0⟩).calls.getLast? =
      some DbCall.commitTx) :=
  ⟨(migrate_transaction_usage ⟨none, fun s => (s, none), none, none, none, none⟩
      ⟨2, .up, .loaded (String.toList "-- migrate: no-transaction\nDROP INDEX i;")⟩
      ⟨[], 0⟩ (String.toList "-- migrate: no-transaction\nDROP INDEX i;") rfl).1
      (by decide),
    ⟨((migrate_transaction_usage ⟨none, fun s => (s, none), none, none, none, none⟩
      ⟨3, .up, .loaded (String.toList "SELECT 1;")⟩ ⟨[], 0⟩
      (String.toList "SELECT 1;") rfl).2 (by decide)).1,
    ((migrate_transaction_usage ⟨none, fun s => (s, none), none, none, none, none⟩
      ⟨3, .up, .loaded (String.toList "SELECT 1;")⟩ ⟨[], 0⟩
      (String.toList "SELECT 1;") rfl).2 (by decide)).2 rfl rfl⟩⟩

theorem migrate_transactional_atomicity_witness :
    (Migrate
      ⟨none, fun s => (⟨9 :: s.versions, 9⟩, some (.pq "ERROR" "42601" "bad" "")),
        none, none, none, none⟩
      ⟨3, .up, .loaded (String.toList "BAD;")⟩ ⟨[5], 7⟩).state.versions = [5] :=
  migrate_transactional_atomicity
    ⟨none, fun s => (⟨9 :: s.versions, 9⟩, some (.pq "ERROR" "42601" "bad" "")),
      none, none, none, none⟩
    ⟨3, .up, .loaded (String.toList "BAD;")⟩ ⟨[5], 7⟩ (String.toList "BAD;")
    (.plain "ERROR 42601: bad") rfl (by decide) rfl

/-- C5 as stated is false: for the SQL text "SELECT 1;\nBAD SQL;\n" and a
database error reporting character offset 10, the message produced by the
execution routine reports line 1, column 10 - the code treats the reported
position as 1-based and passes offset-1 to the conversion - so it does not
report line 2. -/
theorem offset_ten_reports_line_one :
    (internalMigrate
        ⟨none, fun s => (s, some (.pq "ERROR" "42601" "syntax error" "10")),
          none, none, none, none⟩
        ⟨7, .up, .loaded (String.toList "SELECT 1;\nBAD SQL;\n")⟩
        (String.toList "SELECT 1;\nBAD SQL;\n") ⟨[], 0⟩).1 =
      .errored (.plain
        "ERROR 42601: syntax error in line 1, column 10:\n\nSELECT 1;\nBAD SQL;\n") ∧
    ¬ List.IsInfix (String.toList "in line 2")
      (String.toList
        "ERROR 42601: syntax error in line 1, column 10:\n\nSELECT 1;\nBAD SQL;\n") := by
  constructor
  · rfl
  · decide

/-- C5 amended: the database-reported character offset is 1-based; the code
converts it to a 0-based byte position by subtracting one, and the message
then carries a 1-based line equal to one plus the count of newline bytes
among the first offset-1 bytes and a 1-based column equal to the distance
since the last newline; in particular, for "SELECT 1;\nBAD SQL;\n" with
reported offset 11 the message reports line 2 and its context window
includes the literal text of line 2. -/
theorem offset_conversion_amended (b : DbBehavior) (f : File) (content : List Char)
    (s s1 : DbState) (sev code msg pos : String) (off : Int)
    (hrun : b.runSql s = (s1, some (.pq sev code msg pos)))
    (hpos : atoi pos = some off) (hoff : 1 ≤ off) :
    (internalMigrate b f content s).1 = .errored (.plain
      (sev ++ " " ++ code ++ ": " ++ msg ++ " in line " ++
        toString (1 + (content.take (off - 1).toNat).count '\n') ++ ", column " ++
        toString (1 + ((content.take (off - 1).toNat).reverse.takeWhile
          (fun ch => ch != '\n')).length) ++ ":\n\n" ++
        (LinesBeforeAndAfter content
          (1 + (content.take (off - 1).toNat).count '\n') 5 5 true).asString)) := by
  have hmsg : execErrorMessage (.pq sev code msg pos) content = some
      (sev ++ " " ++ code ++ ": " ++ msg ++ " in line " ++
        toString (1 + (content.take (off - 1).toNat).count '\n') ++ ", column " ++
        toString (1 + ((content.take (off - 1).toNat).reverse.takeWhile
          (fun ch => ch != '\n')).length) ++ ":\n\n" ++
        (LinesBeforeAndAfter content
          (1 + (content.take (off - 1).toNat).count '\n') 5 5 true).asString) := by
    unfold execErrorMessage
    simp only [hpos]
    rw [if_pos (show (0 : Int) ≤ off by omega)]
    rfl
  unfold internalMigrate
  rw [hrun]
  simp only [hmsg]

theorem offset_conversion_amended_witness :
    (internalMigrate
        ⟨none, fun s => (s, some (.pq "ERROR" "42601" "syntax error" "11")),
          none, none, none, none⟩
        ⟨7, .up, .loaded (String.toList "SELECT 1;\nBAD SQL;\n")⟩
        (String.toList "SELECT 1;\nBAD SQL;\n") ⟨[], 0⟩).1 =
      .errored (.plain
        "ERROR 42601: syntax error in line 2, column 1:\n\nSELECT 1;\nBAD SQL;\n") ∧
    List.IsInfix (String.toList "in line 2")
      (String.toList
        "ERROR 42601: syntax error in line 2, column 1:\n\nSELECT 1;\nBAD SQL;\n") ∧
    List.IsInfix (String.toList "BAD SQL;")
      (String.toList
        "ERROR 42601: syntax error in line 2, column 1:\n\nSELECT 1;\nBAD SQL;\n") := by
  refine ⟨?_, by decide, by decide⟩
  have h := offset_conversion_amended
    ⟨none, fun s => (s, some (.pq "ERROR" "42601" "syntax error" "11")),
      none, none, none, none⟩
    ⟨7, .up, .loaded (String.toList "SELECT 1;\nBAD SQL;\n")⟩
    (String.toList "SELECT 1;\nBAD SQL;\n") ⟨[], 0⟩ ⟨[], 0⟩
    "ERROR" "42601" "syntax error" "11" 11 rfl rfl (by omega)
  rw [h]
  rfl

/-- C6: a pq execution error whose position parses to a non-negative offset
makes the routine return exactly the composite message
severity SP code ": " message " in line " line ", column " column ":\n\n"
context, with line and column from LineColumnFromOffset at the 0-based
offset and the context from LinesBeforeAndAfter with 5 lines before and 5
after; an unparsable or negative position yields exactly
severity SP code ": " message with no context. -/
theorem exec_error_format (b : DbBehavior) (f : File) (content : List Char)
    (s s1 : DbState) (sev code msg pos : String)
    (hrun : b.runSql s = (s1, some (.pq sev code msg pos))) :
    (∀ off : Int, atoi pos = some off → 0 ≤ off →
      (internalMigrate b f content s).1 = .errored (.plain
        (sev ++ " " ++ code ++ ": " ++ msg ++ " in line " ++
          toString (LineColumnFromOffset content (off - 1).toNat).1 ++ ", column " ++
          toString (LineColumnFromOffset content (off - 1).toNat).2 ++ ":\n\n" ++
          (LinesBeforeAndAfter content
            (LineColumnFromOffset content (off - 1).toNat).1 5 5 true).asString))) ∧
    (atoi pos = none →
      (internalMigrate b f content s).1 =
        .errored (.plain (sev ++ " " ++ code ++ ": " ++ msg))) ∧
    (∀ off : Int, atoi pos = some off → off < 0 →
      (internalMigrate b f content s).1 =
        .errored (.plain (sev ++ " " ++ code ++ ": " ++ msg))) := by
  refine ⟨?_, ?_, ?_⟩
  · intro off hpos hoff
    have hmsg : execErrorMessage (.pq sev code msg pos) content = some
        (sev ++ " " ++ code ++ ": " ++ msg ++ " in line " ++
          toString (LineColumnFromOffset content (off - 1).toNat).1 ++ ", column " ++
          toString (LineColumnFromOffset content (off - 1).toNat).2 ++ ":\n\n" ++
          (LinesBeforeAndAfter content
            (LineColumnFromOffset content (off - 1).toNat).1 5 5 true).asString) := by
      unfold execErrorMessage
      simp only [hpos]
      rw [if_pos hoff]
    unfold internalMigrate
    rw [hrun]
    simp only [hmsg]
  · intro hpos
    have hmsg : execErrorMessage (.pq sev code msg pos) content =
        some (sev ++ " " ++ code ++ ": " ++ msg) := by
      unfold execErrorMessage
      simp only [hpos]
    unfold internalMigrate
    rw [hrun]
    simp only [hmsg]
  · intro off hpos hoff
    have hmsg : execErrorMessage (.pq sev code msg pos) content =
        some (sev ++ " " ++ code ++ ": " ++ msg) := by
      unfold execErrorMessage
      simp only [hpos]
      rw [if_neg (by omega : ¬ (0 : Int) ≤ off)]
    unfold internalMigrate
    rw [hrun]
    simp only [hmsg]

theorem exec_error_format_witness :
    ((internalMigrate
        ⟨none, fun s => (s, some (.pq "ERROR" "42601" "syntax error" "11")),
          none, none, none, none⟩
        ⟨7, .down, .loaded (String.toList "SELECT 1;\nBAD SQL;\n")⟩
        (String.toList "SELECT 1;\nBAD SQL;\n") ⟨[2], 0⟩).1 =
      .errored (.plain
        "ERROR 42601: syntax error in line 2, column 1:\n\nSELECT 1;\nBAD SQL;\n")) ∧
    ((internalMigrate
        ⟨none, fun s => (s, some (.pq "FATAL" "57P01" "terminating connection" "")),
          none, none, none, none⟩
        ⟨7, .up, .loaded (String.toList "SELECT 1;")⟩
        (String.toList "SELECT 1;") ⟨[], 0⟩).1 =
      .errored (.plain "FATAL 57P01: terminating connection")) ∧
    ((internalMigrate
        ⟨none, fun s => (s, some (.pq "ERROR" "42601" "syntax error" "-4")),
          none, none, none, none⟩
        ⟨7, .up, .loaded (String.toList "SELECT 1;")⟩
        (String.toList "SELECT 1;") ⟨[], 0⟩).1 =
      .errored (.plain "ERROR 42601: syntax error")) := by
  refine ⟨?_, ?_, ?_⟩
  · have h := (exec_error_format
      ⟨none, fun s => (s, some (.pq "ERROR" "42601" "syntax error" "11")),
        none, none, none, none⟩
      ⟨7, .down, .loaded (String.toList "SELECT 1;\nBAD SQL;\n")⟩
      (String.toList "SELECT 1;\nBAD SQL;\n") ⟨[2], 0⟩ ⟨[2], 0⟩
      "ERROR" "42601" "syntax error" "11" rfl).1 11 rfl (by omega)
    rw [h]
    rfl
  · have h := (exec_error_format
      ⟨none, fun s => (s, some (.pq "FATAL" "57P01" "terminating connection" "")),
        none, none, none, none⟩
      ⟨7, .up, .loaded (String.toList "SELECT 1;")⟩
      (String.toList "SELECT 1;") ⟨[], 0⟩ ⟨[], 0⟩
      "FATAL" "57P01" "terminating connection" "" rfl).2.1 rfl
    rw [h]
    rfl
  · have h := (exec_error_format
      ⟨none, fun s => (s, some (.pq "ERROR" "42601" "syntax error" "-4")),
        none, none, none, none⟩
      ⟨7, .up, .loaded (String.toList "SELECT 1;")⟩
      (String.toList "SELECT 1;") ⟨[], 0⟩ ⟨[], 0⟩
      "ERROR" "42601" "syntax error" "-4" rfl).2.2 (-4) rfl (by omega)
    rw [h]
    rfl

/-- C10 as stated is false: when open and ping succeed but the creation of
the version table fails, Initialize returns an error - so Initialize has
not succeeded - yet the handle was already assigned, and a subsequent Close
completes without dereferencing a nil handle. -/
theorem init_failure_with_assigned_handle :
    ((initializeDriver ⟨none, none, some (.plain "permission denied")⟩ ⟨none⟩).2 =
      some (.plain "permission denied")) ∧
    Close none (initializeDriver ⟨none, none, some (.plain "permission denied")⟩ ⟨none⟩).1 =
      .completed none ∧
    VersionOnDriver
        (initializeDriver ⟨none, none, some (.plain "permission denied")⟩ ⟨none⟩).1
        ⟨[], 0⟩ none ≠ .nilDeref := by
  refine ⟨rfl, rfl, by decide⟩

/-- C10 amended: the connection handle is assigned only inside Initialize
and only after a successful ping - an open or ping failure leaves the
driver unchanged - and Close and Version dereference the handle
unconditionally, so they dereference a nil handle exactly on a driver
whose handle was never assigned: one on which Initialize never ran, or
every run failed at open or at ping.  (When Initialize fails later, at the
version-table creation, the handle is already assigned and Close and
Version do not hit a nil dereference.) -/
theorem nil_handle_dereference (b : InitBehavior) (d : Driver)
    (ce qe : Option GoError) (s : DbState) :
    (b.openErr ≠ none ∨ (b.openErr = none ∧ b.pingErr ≠ none) →
      (initializeDriver b d).1 = d) ∧
    (b.openErr = none → b.pingErr = none → (initializeDriver b d).1.db = some ()) ∧
    (d.db = none → Close ce d = .nilDeref ∧ VersionOnDriver d s qe = .nilDeref) ∧
    (∀ u, d.db = some u → Close ce d = .completed ce ∧
      VersionOnDriver d s qe = .result (Version s qe).1 (Version s qe).2) := by
  refine ⟨?_, ?_, ?_, ?_⟩
  · intro hfail
    unfold initializeDriver
    rcases hfail with ho | ⟨ho, hp⟩
    · cases hop : b.openErr with
      | none => exact absurd hop ho
      | some e => rfl
    · rw [ho]
      cases hpg : b.pingErr with
      | none => exact absurd hpg hp
      | some e => rfl
  · intro ho hp
    unfold initializeDriver
    rw [ho, hp]
    cases b.createTableErr <;> rfl
  · intro hd
    unfold Close VersionOnDriver
    rw [hd]
    exact ⟨rfl, rfl⟩
  · intro u hd
    unfold Close VersionOnDriver
    rw [hd]
    exact ⟨rfl, rfl⟩

theorem nil_handle_dereference_witness :
    ((initializeDriver ⟨none, some (.plain "connection refused"), none⟩ ⟨none⟩).1 =
      ⟨none⟩) ∧
    ((initializeDriver ⟨none, none, none⟩ ⟨none⟩).1.db = some ()) ∧
    (Close none (⟨none⟩ : Driver) = .nilDeref ∧
      VersionOnDriver (⟨none⟩ : Driver) ⟨[], 0⟩ none = .nilDeref) :=
  ⟨(nil_handle_dereference ⟨none, some (.plain "connection refused"), none⟩ ⟨none⟩
      none none ⟨[], 0⟩).1 (Or.inr ⟨rfl, by decide⟩),
    (nil_handle_dereference ⟨none, none, none⟩ ⟨none⟩ none none ⟨[], 0⟩).2.1 rfl rfl,
    (nil_handle_dereference ⟨none, some (.plain "connection refused"), none⟩ ⟨none⟩
      none none ⟨[], 0⟩).2.2.1 rfl⟩

end MigratePostgres
